import Mathlib

/-!
Verification of the server-side VNC handshake state machine
(`src/service/src/VncServerProtocol.cpp`).

The state machine is embedded shallowly: the per-connection mutable state
(protocol phase, access-control phase, authentication phase, captured
identity fields, socket buffers) becomes an explicit record, and each
phase handler of the C++ class becomes a pure function from that record
to a pair of the handler's boolean result and the updated record.  The
two external collaborators (the authentication manager and the access
control manager) and the list of advertised authentication types are
parameters, gathered in an environment record.
-/

namespace VncServerProtocol

/-- Protocol phases of the connection, in handshake order
(`VncServerProtocol::State`). -/
inductive State where
  | Disconnected
  | Protocol
  | SecurityInit
  | AuthenticationTypes
  | Authenticating
  | AccessControl
  | FramebufferInit
  | Running
  | Close
deriving DecidableEq, Repr

/-- Access-control sub-states of the connection
(`VncServerClient::AccessControlState`). -/
inductive AccessControlState where
  | AccessControlInit
  | AccessControlWaiting
  | AccessControlPending
  | AccessControlSuccessful
  | AccessControlFailed
deriving DecidableEq, Repr

/-- Authentication sub-states owned by the authentication collaborator
(`VncServerClient::AuthState`); the state machine only inspects the two
finished values. -/
inductive AuthState where
  | AuthInit
  | AuthInProgress
  | AuthFinishedSuccess
  | AuthFinishedFail
deriving DecidableEq, Repr

/-- Length of the RFB protocol version banner (`sz_rfbProtocolVersionMsg`,
the 12 bytes of a string such as the one produced for version 3.8). -/
def sz_rfbProtocolVersionMsg : Nat := 12

/-- Length of the RFB client-init message (`sz_rfbClientInitMsg`: a single
shared-flag byte). -/
def sz_rfbClientInitMsg : Nat := 1

/-- The vendor-specific security type advertised by the server
(`rfbSecTypeVeyon`); only its identity matters to the state machine. -/
def rfbSecTypeVeyon : Nat := 40

/-- The RFB authentication success code (`rfbVncAuthOK`), value 0. -/
def rfbVncAuthOK : Nat := 0

/-- The "no authentication" type identifier (`RfbVeyonAuth::None`). -/
def veyonAuthNone : Nat := 0

/-- Values carried by a variant array message: typed scalars, here
integers (covering enumerants and counts) and strings. -/
inductive VariantValue where
  | vint (n : Nat)
  | vstr (s : String)
deriving DecidableEq, Repr

/-- Big-endian 4-byte encoding of a 32-bit number. -/
def toBigEndian32 (n : Nat) : List Nat :=
  [n / 2 ^ 24 % 256, n / 2 ^ 16 % 256, n / 2 ^ 8 % 256, n % 256]

/-- Big-endian 4-byte decoding; fails when fewer than 4 bytes remain. -/
def fromBigEndian32 : List Nat → Option (Nat × List Nat)
  | b0 :: b1 :: b2 :: b3 :: rest =>
      some (((b0 * 256 + b1) * 256 + b2) * 256 + b3, rest)
  | _ => none

/-- Modelled from the spec: serialization of one typed value of the
Length-Prefixed Variant Message Codec (`VariantArrayMessage`, whose code
is not part of the source under study): a one-byte type tag followed by
the value, strings carrying their own length prefix. -/
def encodeValue : VariantValue → List Nat
  | .vint n => 0 :: toBigEndian32 (n % 2 ^ 32)
  | .vstr s => 1 :: (toBigEndian32 (s.length % 2 ^ 32) ++ s.data.map Char.toNat)

/-- Modelled from the spec: deserialization of one typed value, inverse
of `encodeValue`; fails on a truncated or unknown-tag input. -/
def decodeValue : List Nat → Option (VariantValue × List Nat)
  | 0 :: rest => (fromBigEndian32 rest).map fun p => (.vint p.1, p.2)
  | 1 :: rest =>
      match fromBigEndian32 rest with
      | some (len, r) =>
          if len ≤ r.length then
            some (.vstr (String.mk ((r.take len).map Char.ofNat)), r.drop len)
          else none
      | none => none
  | _ => none

/-- Modelled from the spec: deserialization of a whole payload into its
sequence of values; the fuel argument bounds recursion (each value
consumes at least one byte, so the payload length is enough fuel). -/
def decodeValues : Nat → List Nat → Option (List VariantValue)
  | _, [] => some []
  | 0, _ :: _ => none
  | fuel + 1, l =>
      match decodeValue l with
      | some (v, r) => (decodeValues fuel r).map (v :: ·)
      | none => none

/-- Modelled from the spec: a complete variant array message on the wire
is a 4-byte big-endian byte-length prefix followed by the encoded
values. -/
def encodeMessage (vs : List VariantValue) : List Nat :=
  let payload := (vs.map encodeValue).flatten
  toBigEndian32 (payload.length % 2 ^ 32) ++ payload

/-- Modelled from the spec: `VariantArrayMessage::isReadyForReceive`
reports whether the declared message length is fully buffered. -/
def isReadyForReceive (l : List Nat) : Bool :=
  match fromBigEndian32 l with
  | some (len, rest) => len ≤ rest.length
  | none => false

/-- Modelled from the spec: `VariantArrayMessage::receive` decodes one
complete message, returning its values and the bytes remaining after it;
it fails, consuming nothing, on truncated or malformed input. -/
def var_receive (l : List Nat) : Option (List VariantValue × List Nat) :=
  match fromBigEndian32 l with
  | some (len, rest) =>
      if len ≤ rest.length then
        match decodeValues len (rest.take len) with
        | some vs => some (vs, rest.drop len)
        | none => none
      else none
  | none => none

/-- Modelled from the spec: reading a variant value as an authentication
type identifier (`message.read().value<RfbVeyonAuth::Type>()`). -/
def variantToAuthType : VariantValue → Nat
  | .vint n => n
  | .vstr _ => 0

/-- Modelled from the spec: reading a variant value as a string
(`message.read().toString()`), as used for the username the client sends
as a string value. -/
def variantToString : VariantValue → String
  | .vstr s => s
  | .vint _ => ""

/-- The Connection State Record together with the borrowed socket: the
fields of `VncServerClient` the state machine reads or writes, the
pre-serialized server-init payload, and the socket modelled as a receive
buffer, a write transcript and a closed flag. -/
structure ConnState where
  protocolState : State
  accessControlState : AccessControlState
  authState : AuthState
  authType : Nat
  username : String
  hostAddress : String
  peerAddress : String
  serverInitMessage : List Nat
  inBuf : List Nat
  outBuf : List Nat
  closed : Bool
deriving DecidableEq, Repr

/-- The external collaborators: the advertised authentication types and
`processAuthenticationMessage` of the `ServerAuthenticationManager`
(returning the new authentication state and any bytes it writes), and
`addClient` of the `ServerAccessControlManager` (returning the new
access-control state). -/
structure Env where
  supportedAuthTypes : List Nat
  processAuthenticationMessage : ConnState → List VariantValue → AuthState × List Nat
  addClient : ConnState → AccessControlState

/-- Bytes currently readable from the socket; a closed socket has none. -/
def bytesAvailable (s : ConnState) : Nat :=
  if s.closed then 0 else s.inBuf.length

/-- The readable content of the socket buffer; empty once closed. -/
def socketBuf (s : ConnState) : List Nat :=
  if s.closed then [] else s.inBuf

/-- Writing bytes to the socket; a write on a closed socket does
nothing. -/
def socketWrite (s : ConnState) (bs : List Nat) : ConnState :=
  if s.closed then s else { s with outBuf := s.outBuf ++ bs }

/-- Consuming `n` bytes from the front of the receive buffer. -/
def socketReadDrop (s : ConnState) (n : Nat) : ConnState :=
  { s with inBuf := (socketBuf s).drop n }

/-- Closing the socket discards any buffered receive data. -/
def socketClose (s : ConnState) : ConnState :=
  { s with closed := true, inBuf := [] }

/-- Model of `VncServerProtocol::setState`. -/
def setState (s : ConnState) (st : State) : ConnState :=
  { s with protocolState := st }

/-- The protocol version banner written by `start()`:
`sprintf(protocol, rfbProtocolVersionFormat, 3, 8)` produces
"RFB 003.008\n". -/
def protocolVersionBanner : List Nat :=
  "RFB 003.008\n".data.map Char.toNat

/-- Model of `VncServerProtocol::start`: in the `Disconnected` phase, write the
version banner and advance to `Protocol`; otherwise do nothing. -/
def start (s : ConnState) : ConnState :=
  if s.protocolState = State.Disconnected then
    setState (socketWrite s protocolVersionBanner) State.Protocol
  else s

/-- Byte is an ASCII decimal digit. -/
def isDigitByte (b : Nat) : Bool := 48 ≤ b && b ≤ 57

/-- Byte is ASCII whitespace (as skipped by a scanf conversion). -/
def isSpaceByte (b : Nat) : Bool :=
  b = 32 || b = 9 || b = 10 || b = 11 || b = 12 || b = 13

/-- Drop leading ASCII whitespace bytes. -/
def dropSpaces (l : List Nat) : List Nat := l.dropWhile isSpaceByte

/-- Take at most `k` leading digit bytes, returning them and the rest. -/
def takeDigitsUpTo : Nat → List Nat → List Nat × List Nat
  | 0, l => ([], l)
  | _ + 1, [] => ([], [])
  | k + 1, b :: rest =>
      if isDigitByte b then
        let p := takeDigitsUpTo k rest
        (b :: p.1, p.2)
      else ([], b :: rest)

/-- One `%03d` field of `sscanf`: skip whitespace, then read one to
three digit bytes; returns the remaining bytes on success. -/
def scanField3 (l : List Nat) : Option (List Nat) :=
  let l1 := dropSpaces l
  let p := takeDigitsUpTo 3 l1
  if p.1.isEmpty then none else some p.2

/-- Model of `sscanf(protocol, rfbProtocolVersionFormat, &maj, &min) == 2`
with format "RFB %03d.%03d\n": the literal bytes 'R' 'F' 'B', a number
field, a literal '.', and a second number field (the parsed values are
discarded by the caller, so matching success is all that is modelled). -/
def sscanfVersionOk (l : List Nat) : Bool :=
  match l with
  | 82 :: 70 :: 66 :: rest =>
      match scanField3 rest with
      | some (46 :: r2) => (scanField3 r2).isSome
      | _ => false
  | _ => false

/-- Model of `VncServerProtocol::sendSecurityTypes`: write the one-entry security
type list. -/
def sendSecurityTypes (s : ConnState) : Bool × ConnState :=
  (true, socketWrite s [1, rfbSecTypeVeyon])

/-- Model of `VncServerProtocol::readProtocol`: with exactly a banner-length
buffer, consume it; a banner the version format cannot parse closes the
connection, otherwise advance to `SecurityInit` and send the security
type list. -/
def readProtocol (s : ConnState) : Bool × ConnState :=
  if bytesAvailable s = sz_rfbProtocolVersionMsg then
    let protocol := (socketBuf s).take sz_rfbProtocolVersionMsg
    let s1 := socketReadDrop s sz_rfbProtocolVersionMsg
    if sscanfVersionOk protocol then
      sendSecurityTypes (setState s1 State.SecurityInit)
    else
      (false, socketClose s1)
  else (false, s)

/-- Model of `VncServerProtocol::sendAuthenticationTypes`: send the count of
advertised authentication types followed by each one, as a variant
message. -/
def sendAuthenticationTypes (e : Env) (s : ConnState) : Bool × ConnState :=
  (true, socketWrite s (encodeMessage
    (VariantValue.vint e.supportedAuthTypes.length ::
      e.supportedAuthTypes.map VariantValue.vint)))

/-- Model of `VncServerProtocol::receiveSecurityTypeResponse`: with at least one
byte buffered, consume one byte; any value other than the advertised
security type closes the connection, otherwise advance to
`AuthenticationTypes` and send the authentication type list. -/
def receiveSecurityTypeResponse (e : Env) (s : ConnState) : Bool × ConnState :=
  if 1 ≤ bytesAvailable s then
    let chosenSecurityType := (socketBuf s).headD 0
    let s1 := socketReadDrop s 1
    if chosenSecurityType = rfbSecTypeVeyon then
      sendAuthenticationTypes e (setState s1 State.AuthenticationTypes)
    else
      (false, socketClose s1)
  else (false, s)

/-- Model of `VncServerProtocol::processAuthentication`: forward the message to
the authentication collaborator, then inspect the resulting
authentication state: on success write the 4-byte big-endian success
code and advance to `AccessControl`; on failure close; otherwise report
no progress. -/
def processAuthentication (e : Env) (s : ConnState)
    (message : List VariantValue) : Bool × ConnState :=
  let r := e.processAuthenticationMessage s message
  let s1 := socketWrite { s with authState := r.1 } r.2
  match r.1 with
  | AuthState.AuthFinishedSuccess =>
      (true, setState (socketWrite s1 (toBigEndian32 rfbVncAuthOK)) State.AccessControl)
  | AuthState.AuthFinishedFail => (false, socketClose s1)
  | _ => (false, s1)

/-- The tail of `VncServerProtocol::receiveAuthenticationTypeResponse`
for a chosen real authentication type: capture auth type, username and
peer address, advance to `Authenticating`, send the acknowledgement
variant message, run one authentication round on an empty dummy message
(discarding its result), and return false. -/
def beginAuthentication (e : Env) (s1 : ConnState)
    (chosenAuthType : Nat) (username : String) : Bool × ConnState :=
  let s2 : ConnState :=
    { s1 with authType := chosenAuthType, username := username,
              hostAddress := s1.peerAddress }
  let s3 := setState s2 State.Authenticating
  let s4 := socketWrite s3 (encodeMessage [])
  (false, (processAuthentication e s4 []).2)

/-- Model of `VncServerProtocol::receiveAuthenticationTypeResponse`: once a
complete variant message is buffered, read the chosen authentication
type; an unadvertised type closes the connection; the "none" type
advances directly to `AccessControl` returning true; otherwise capture
username, auth type and peer address, advance to `Authenticating`, send
the acknowledgement message, run one authentication round on an empty
dummy message, and return false. -/
def receiveAuthenticationTypeResponse (e : Env) (s : ConnState) : Bool × ConnState :=
  match var_receive (socketBuf s) with
  | some (vs, rest) =>
      let s1 : ConnState := { s with inBuf := rest }
      let chosenAuthType := variantToAuthType (vs.headD (VariantValue.vint 0))
      if e.supportedAuthTypes.contains chosenAuthType = false then
        (false, socketClose s1)
      else if chosenAuthType = veyonAuthNone then
        (true, setState s1 State.AccessControl)
      else
        beginAuthentication e s1 chosenAuthType
          (variantToString (vs.getD 1 (VariantValue.vint 0)))
  | none => (false, s)

/-- Model of `VncServerProtocol::receiveAuthenticationMessage`: once a complete
variant message is buffered, consume it and process it as an
authentication round. -/
def receiveAuthenticationMessage (e : Env) (s : ConnState) : Bool × ConnState :=
  match var_receive (socketBuf s) with
  | some (vs, rest) => processAuthentication e { s with inBuf := rest } vs
  | none => (false, s)

/-- Model of `VncServerProtocol::processAccessControl`: (re-)submit the client to
the access control manager when the sub-state is `Init` or `Waiting`,
then dispatch on the sub-state: `Successful` advances to
`FramebufferInit`; `Pending` and `Waiting` report no progress; anything
else closes the connection. -/
def processAccessControl (e : Env) (s : ConnState) : Bool × ConnState :=
  let s1 :=
    if s.accessControlState = AccessControlState.AccessControlInit ∨
       s.accessControlState = AccessControlState.AccessControlWaiting then
      { s with accessControlState := e.addClient s }
    else s
  match s1.accessControlState with
  | AccessControlState.AccessControlSuccessful =>
      (true, setState s1 State.FramebufferInit)
  | AccessControlState.AccessControlPending => (false, s1)
  | AccessControlState.AccessControlWaiting => (false, s1)
  | _ => (false, socketClose s1)

/-- Model of `VncServerProtocol::processFramebufferInit`: once the client-init
message is buffered and the server-init payload is populated, consume
the client-init bytes, write the server-init payload verbatim, and
advance to `Running`. -/
def processFramebufferInit (s : ConnState) : Bool × ConnState :=
  if sz_rfbClientInitMsg ≤ bytesAvailable s ∧ s.serverInitMessage.isEmpty = false then
    let s1 := socketReadDrop s sz_rfbClientInitMsg
    (true, setState (socketWrite s1 s.serverInitMessage) State.Running)
  else (false, s)

/-- Model of `VncServerProtocol::read`: dispatch on the protocol phase; the
`Close` phase closes the socket; `Disconnected` and `Running` report no
progress. -/
def read (e : Env) (s : ConnState) : Bool × ConnState :=
  match s.protocolState with
  | State.Protocol => readProtocol s
  | State.SecurityInit => receiveSecurityTypeResponse e s
  | State.AuthenticationTypes => receiveAuthenticationTypeResponse e s
  | State.Authenticating => receiveAuthenticationMessage e s
  | State.AccessControl => processAccessControl e s
  | State.FramebufferInit => processFramebufferInit s
  | State.Close => (false, socketClose s)
  | _ => (false, s)

/-- Position of a phase in the handshake order, used as the termination
measure for the drain-after-resume loop. -/
def phaseRank : State → Nat
  | State.Disconnected => 0
  | State.Protocol => 1
  | State.SecurityInit => 2
  | State.AuthenticationTypes => 3
  | State.Authenticating => 4
  | State.AccessControl => 5
  | State.FramebufferInit => 6
  | State.Running => 7
  | State.Close => 8

@[simp] lemma protocolState_socketWrite (s : ConnState) (bs : List Nat) :
    (socketWrite s bs).protocolState = s.protocolState := by
  unfold socketWrite; split <;> rfl

@[simp] lemma protocolState_socketReadDrop (s : ConnState) (n : Nat) :
    (socketReadDrop s n).protocolState = s.protocolState := rfl

@[simp] lemma protocolState_socketClose (s : ConnState) :
    (socketClose s).protocolState = s.protocolState := rfl

@[simp] lemma protocolState_setState (s : ConnState) (st : State) :
    (setState s st).protocolState = st := rfl

@[simp] lemma closed_socketWrite (s : ConnState) (bs : List Nat) :
    (socketWrite s bs).closed = s.closed := by
  unfold socketWrite; split <;> rfl

@[simp] lemma closed_socketReadDrop (s : ConnState) (n : Nat) :
    (socketReadDrop s n).closed = s.closed := rfl

@[simp] lemma closed_socketClose (s : ConnState) :
    (socketClose s).closed = true := rfl

@[simp] lemma closed_setState (s : ConnState) (st : State) :
    (setState s st).closed = s.closed := rfl

@[simp] lemma inBuf_socketClose (s : ConnState) :
    (socketClose s).inBuf = [] := rfl

@[simp] lemma inBuf_setState (s : ConnState) (st : State) :
    (setState s st).inBuf = s.inBuf := rfl

@[simp] lemma inBuf_socketWrite (s : ConnState) (bs : List Nat) :
    (socketWrite s bs).inBuf = s.inBuf := by
  unfold socketWrite; split <;> rfl

lemma phaseRank_le (st : State) : phaseRank st ≤ 8 := by
  cases st <;> simp [phaseRank]

/-- Every handler result for `readProtocol`: either progress with the
phase advanced to `SecurityInit`, or no progress with the phase
unchanged. -/
lemma readProtocol_phase (s : ConnState) :
    ((readProtocol s).1 = true ∧ (readProtocol s).2.protocolState = State.SecurityInit) ∨
    ((readProtocol s).1 = false ∧ (readProtocol s).2.protocolState = s.protocolState) := by
  simp only [readProtocol, sendSecurityTypes]
  split
  · split <;> simp
  · simp

lemma receiveSecurityTypeResponse_phase (e : Env) (s : ConnState) :
    ((receiveSecurityTypeResponse e s).1 = true ∧
      (receiveSecurityTypeResponse e s).2.protocolState = State.AuthenticationTypes) ∨
    ((receiveSecurityTypeResponse e s).1 = false ∧
      (receiveSecurityTypeResponse e s).2.protocolState = s.protocolState) := by
  simp only [receiveSecurityTypeResponse, sendAuthenticationTypes]
  split
  · split <;> simp
  · simp

lemma processAuthentication_phase (e : Env) (s : ConnState) (m : List VariantValue) :
    ((processAuthentication e s m).1 = true ∧
      (processAuthentication e s m).2.protocolState = State.AccessControl) ∨
    ((processAuthentication e s m).1 = false ∧
      (processAuthentication e s m).2.protocolState = s.protocolState) := by
  simp only [processAuthentication]
  split <;> simp

/-- The authenticated-path tail never reports progress, and it leaves
the phase at `Authenticating` unless the immediately-run dummy
authentication round already succeeds, in which case the phase is
`AccessControl`. -/
lemma beginAuthentication_spec (e : Env) (s1 : ConnState) (c : Nat) (u : String) :
    (beginAuthentication e s1 c u).1 = false ∧
    ((beginAuthentication e s1 c u).2.protocolState = State.Authenticating ∨
     (beginAuthentication e s1 c u).2.protocolState = State.AccessControl) := by
  refine ⟨rfl, ?_⟩
  rcases processAuthentication_phase e
      (socketWrite (setState { s1 with authType := c, username := u, hostAddress := s1.peerAddress } State.Authenticating) (encodeMessage [])) [] with h | h
  · right; simpa using h.2
  · left; simpa using h.2

/-- Against a collaborator that fails every authentication round, the
authenticated-path tail closes the socket with the phase already
advanced to `Authenticating`. -/
lemma beginAuthentication_fail (e : Env) (s1 : ConnState) (c : Nat) (u : String)
    (hF : ∀ s2 m, (e.processAuthenticationMessage s2 m).1 = AuthState.AuthFinishedFail) :
    (beginAuthentication e s1 c u).1 = false ∧
    (beginAuthentication e s1 c u).2.closed = true ∧
    (beginAuthentication e s1 c u).2.protocolState = State.Authenticating := by
  refine ⟨rfl, ?_, ?_⟩ <;>
    simp [beginAuthentication, processAuthentication, hF]

lemma receiveAuthenticationTypeResponse_phase (e : Env) (s : ConnState) :
    ((receiveAuthenticationTypeResponse e s).1 = true ∧
      (receiveAuthenticationTypeResponse e s).2.protocolState = State.AccessControl) ∨
    ((receiveAuthenticationTypeResponse e s).1 = false ∧
      ((receiveAuthenticationTypeResponse e s).2.protocolState = s.protocolState ∨
       (receiveAuthenticationTypeResponse e s).2.protocolState = State.Authenticating ∨
       (receiveAuthenticationTypeResponse e s).2.protocolState = State.AccessControl)) := by
  simp only [receiveAuthenticationTypeResponse]
  split
  · split
    · simp
    · split
      · simp
      · exact Or.inr ⟨(beginAuthentication_spec e _ _ _).1,
          Or.inr (beginAuthentication_spec e _ _ _).2⟩
  · simp

lemma receiveAuthenticationMessage_phase (e : Env) (s : ConnState) :
    ((receiveAuthenticationMessage e s).1 = true ∧
      (receiveAuthenticationMessage e s).2.protocolState = State.AccessControl) ∨
    ((receiveAuthenticationMessage e s).1 = false ∧
      (receiveAuthenticationMessage e s).2.protocolState = s.protocolState) := by
  simp only [receiveAuthenticationMessage]
  split
  · rcases processAuthentication_phase e _ _ with h | h
    · left; exact h
    · right; exact h
  · simp

lemma processAccessControl_phase (e : Env) (s : ConnState) :
    ((processAccessControl e s).1 = true ∧
      (processAccessControl e s).2.protocolState = State.FramebufferInit) ∨
    ((processAccessControl e s).1 = false ∧
      (processAccessControl e s).2.protocolState = s.protocolState) := by
  simp only [processAccessControl]
  split
  · simp
  · split <;> simp
  · split <;> simp
  · split <;> simp

lemma processFramebufferInit_phase (s : ConnState) :
    ((processFramebufferInit s).1 = true ∧
      (processFramebufferInit s).2.protocolState = State.Running) ∨
    ((processFramebufferInit s).1 = false ∧
      (processFramebufferInit s).2.protocolState = s.protocolState) := by
  simp only [processFramebufferInit]
  split <;> simp

/-- When `read` reports progress, the phase strictly advances in the
handshake order. -/
lemma read_true_phaseRank (e : Env) (s : ConnState) (h : (read e s).1 = true) :
    phaseRank s.protocolState < phaseRank (read e s).2.protocolState := by
  unfold read at h ⊢
  cases hp : s.protocolState <;> simp only [hp] at h ⊢
  case Disconnected => simp at h
  case Running => simp at h
  case Close => simp at h
  case Protocol =>
    rcases readProtocol_phase s with hc | hc
    · rw [hc.2]; decide
    · rw [hc.1] at h; simp at h
  case SecurityInit =>
    rcases receiveSecurityTypeResponse_phase e s with hc | hc
    · rw [hc.2]; decide
    · rw [hc.1] at h; simp at h
  case AuthenticationTypes =>
    rcases receiveAuthenticationTypeResponse_phase e s with hc | hc
    · rw [hc.2]; decide
    · rw [hc.1] at h; simp at h
  case Authenticating =>
    rcases receiveAuthenticationMessage_phase e s with hc | hc
    · rw [hc.2]; decide
    · rw [hc.1] at h; simp at h
  case AccessControl =>
    rcases processAccessControl_phase e s with hc | hc
    · rw [hc.2]; decide
    · rw [hc.1] at h; simp at h
  case FramebufferInit =>
    rcases processFramebufferInit_phase s with hc | hc
    · rw [hc.2]; decide
    · rw [hc.1] at h; simp at h

/-- The drain loop of `VncServerProtocol::finishAccessControl`:
`while( read() ) {}`.  It terminates because every progressing call
strictly advances the phase. -/
def readLoop (e : Env) (s : ConnState) : ConnState :=
  if h : (read e s).1 = true then readLoop e (read e s).2 else (read e s).2
termination_by 8 - phaseRank s.protocolState
decreasing_by
  have h1 := read_true_phaseRank e s h
  have h2 := phaseRank_le ((read e s).2.protocolState)
  omega

/-- Model of `VncServerProtocol::finishAccessControl`: on the collaborator's
decision notification, if the notification targets this connection and
the access-control sub-procedure now reports progress, drain `read()`
until it reports no progress. -/
def finishAccessControl (e : Env) (sameClient : Bool) (s : ConnState) : ConnState :=
  if sameClient then
    let r := processAccessControl e s
    if r.1 then readLoop e r.2 else r.2
  else s

/-- Iterated invocation of `read`, discarding the boolean results; used
to speak about arbitrarily many repeated calls. -/
def readIter (e : Env) : Nat → ConnState → ConnState
  | 0, s => s
  | n + 1, s => readIter e n (read e s).2

lemma readLoop_step_true (e : Env) (s : ConnState) (h : (read e s).1 = true) :
    readLoop e s = readLoop e (read e s).2 := by
  rw [readLoop]; simp [h]

lemma readLoop_step_false (e : Env) (s : ConnState) (h : (read e s).1 = false) :
    readLoop e s = (read e s).2 := by
  rw [readLoop]; simp [h]

/-- A freshly accepted connection: the record created when the socket is
accepted, before `start()`. -/
def sampleState : ConnState :=
  { protocolState := State.Disconnected
    accessControlState := AccessControlState.AccessControlInit
    authState := AuthState.AuthInit
    authType := 0
    username := ""
    hostAddress := ""
    peerAddress := "10.0.0.7"
    serverInitMessage := []
    inBuf := []
    outBuf := []
    closed := false }

/-- A sample environment advertising the "none" type and one real
authentication type (18), whose authentication collaborator keeps the
negotiation in progress and whose access-control collaborator leaves the
sub-state unchanged. -/
def e0 : Env :=
  { supportedAuthTypes := [0, 18]
    processAuthenticationMessage := fun _ _ => (AuthState.AuthInProgress, [])
    addClient := fun s => s.accessControlState }

/-- A sample environment whose authentication collaborator immediately
succeeds, writing one byte of its own. -/
def eSucc : Env :=
  { supportedAuthTypes := [0, 18]
    processAuthenticationMessage := fun _ _ => (AuthState.AuthFinishedSuccess, [9])
    addClient := fun s => s.accessControlState }

/-- A sample environment whose authentication collaborator immediately
fails. -/
def eFail : Env :=
  { supportedAuthTypes := [0, 18]
    processAuthenticationMessage := fun _ _ => (AuthState.AuthFinishedFail, [])
    addClient := fun s => s.accessControlState }

/-- C9: `start()` is idempotent after leaving `Disconnected`: in the
`Disconnected` phase it writes the fixed-length protocol-version banner
once and advances the phase to `Protocol`; in any other phase it writes
nothing and changes no state, so a second call has no effect. -/
theorem start_writes_banner_once (s : ConnState) :
    (s.protocolState = State.Disconnected → s.closed = false →
      start s = { s with protocolState := State.Protocol,
                         outBuf := s.outBuf ++ protocolVersionBanner }) ∧
    (s.protocolState ≠ State.Disconnected → start s = s) ∧
    start (start s) = start s := by
  refine ⟨fun hp hc => ?_, fun hp => ?_, ?_⟩
  · simp [start, hp, socketWrite, hc, setState]
  · simp [start, hp]
  · by_cases hp : s.protocolState = State.Disconnected
    · have h1 : (start s).protocolState = State.Protocol := by
        simp [start, hp]
      simp [start, hp, h1]
    · simp [start, hp]

/-- Witness for C9 at the freshly accepted connection. -/
theorem start_writes_banner_once_witness :
    start sampleState =
      { sampleState with protocolState := State.Protocol,
                         outBuf := sampleState.outBuf ++ protocolVersionBanner } ∧
    start (start sampleState) = start sampleState :=
  ⟨(start_writes_banner_once sampleState).1 rfl rfl,
   (start_writes_banner_once sampleState).2.2⟩

/-- C10: in the `Protocol` phase, strictly more buffered bytes than the
version-banner length make `read()` return false and consume nothing:
the progress condition is equality with the banner length. -/
theorem protocol_over_length_no_progress (e : Env) (s : ConnState)
    (hp : s.protocolState = State.Protocol)
    (hl : sz_rfbProtocolVersionMsg < bytesAvailable s) :
    read e s = (false, s) := by
  have hne : ¬ bytesAvailable s = sz_rfbProtocolVersionMsg := by omega
  simp [read, hp, readProtocol, hne]

/-- A client that sends the banner together with one extra byte in one
burst. -/
def sProto13 : ConnState :=
  { sampleState with protocolState := State.Protocol,
                     inBuf := protocolVersionBanner ++ [0] }

/-- Witness for C10: thirteen buffered bytes in the `Protocol` phase
make no progress. -/
theorem protocol_over_length_no_progress_witness :
    read e0 sProto13 = (false, sProto13) :=
  protocol_over_length_no_progress e0 sProto13 rfl (by decide)

/-- C4: while the protocol phase is `AccessControl` and the sub-state is
`Pending`, or `Waiting` with a collaborator that does not change the
sub-state during the call, `read()` returns false, closes nothing, and
advances nothing; the state is a fixed point, so this holds for
arbitrarily many repeated calls. -/
theorem accessControl_pending_no_progress (e : Env) (s : ConnState) (n : Nat)
    (hp : s.protocolState = State.AccessControl)
    (hcl : s.closed = false)
    (hac : s.accessControlState = AccessControlState.AccessControlPending ∨
           (s.accessControlState = AccessControlState.AccessControlWaiting ∧
             e.addClient s = AccessControlState.AccessControlWaiting)) :
    read e s = (false, s) ∧ readIter e n s = s ∧
    (readIter e n s).closed = false ∧
    (readIter e n s).protocolState = State.AccessControl := by
  have h1 : read e s = (false, s) := by
    rcases hac with hP | ⟨hW, hAdd⟩
    · simp [read, hp, processAccessControl, hP]
    · have hs : ({ s with protocolState := State.AccessControl, accessControlState := AccessControlState.AccessControlWaiting } : ConnState) = s := by
        rw [← hp, ← hW]
      simp [read, hp, processAccessControl, hW, hAdd, hs]
  have h2 : ∀ m, readIter e m s = s := by
    intro m
    induction m with
    | zero => rfl
    | succ k ih => simp [readIter, h1, ih]
  exact ⟨h1, h2 n, by rw [h2 n]; exact hcl, by rw [h2 n]; exact hp⟩

/-- A connection stuck behind a pending access-control decision. -/
def sAcPending : ConnState :=
  { sampleState with protocolState := State.AccessControl,
                     accessControlState := AccessControlState.AccessControlPending }

/-- Witness for C4: five repeated calls on a pending access-control
decision leave the state untouched. -/
theorem accessControl_pending_no_progress_witness :
    read e0 sAcPending = (false, sAcPending) ∧
    readIter e0 5 sAcPending = sAcPending ∧
    (readIter e0 5 sAcPending).closed = false ∧
    (readIter e0 5 sAcPending).protocolState = State.AccessControl :=
  accessControl_pending_no_progress e0 sAcPending 5 rfl rfl (Or.inl rfl)

/-- C6: in the `SecurityInit` phase a buffered security-type byte other
than the advertised one makes `read()` close the connection and return
false; the closed socket has no readable bytes, and every subsequent
`read()` call leaves the state untouched, consuming nothing. -/
theorem wrong_security_type_closes (e : Env) (s : ConnState) (n : Nat)
    (hp : s.protocolState = State.SecurityInit)
    (hcl : s.closed = false)
    (hb : 1 ≤ s.inBuf.length)
    (hw : s.inBuf.headD 0 ≠ rfbSecTypeVeyon) :
    read e s = (false, { s with inBuf := [], closed := true }) ∧
    readIter e n { s with inBuf := [], closed := true } =
      { s with inBuf := [], closed := true } := by
  have h1 : read e s = (false, { s with inBuf := [], closed := true }) := by
    have hav : 1 ≤ bytesAvailable s := by simp [bytesAvailable, hcl, hb]
    have hbne : ¬ s.inBuf.head?.getD 0 = rfbSecTypeVeyon := by simpa using hw
    simp [read, hp, receiveSecurityTypeResponse, hav, socketBuf, hcl, hbne,
      socketClose, socketReadDrop]
  have h2 : read e { s with inBuf := [], closed := true } =
      (false, { s with inBuf := [], closed := true }) := by
    simp [read, hp, receiveSecurityTypeResponse, bytesAvailable]
  refine ⟨h1, ?_⟩
  induction n with
  | zero => rfl
  | succ k ih => simp [readIter, h2, ih]

/-- A client proposing security type 2 where only the advertised type is
acceptable. -/
def sWrongSec : ConnState :=
  { sampleState with protocolState := State.SecurityInit, inBuf := [2] }

/-- Witness for C6: the wrong security-type byte closes the connection
and three further calls change nothing. -/
theorem wrong_security_type_closes_witness :
    read e0 sWrongSec = (false, { sWrongSec with inBuf := [], closed := true }) ∧
    readIter e0 3 { sWrongSec with inBuf := [], closed := true } =
      { sWrongSec with inBuf := [], closed := true } :=
  wrong_security_type_closes e0 sWrongSec 3 rfl rfl (by decide) (by decide)

/-- C2: delivering a matching successful access-control decision
notification advances the phase to `FramebufferInit` and drains
`read()`; with a complete client-init message already buffered and a
populated server-init payload, the connection reaches `Running` in that
single pass, with the server-init blob appended verbatim to the socket
output. -/
theorem finishAccessControl_completes_handshake (e : Env) (s : ConnState)
    (hp : s.protocolState = State.AccessControl)
    (hac : s.accessControlState = AccessControlState.AccessControlSuccessful)
    (hcl : s.closed = false)
    (hb : sz_rfbClientInitMsg ≤ s.inBuf.length)
    (hsi : s.serverInitMessage.isEmpty = false) :
    (processAccessControl e s).1 = true ∧
    (processAccessControl e s).2.protocolState = State.FramebufferInit ∧
    finishAccessControl e true s =
      { s with protocolState := State.Running,
               inBuf := s.inBuf.drop sz_rfbClientInitMsg,
               outBuf := s.outBuf ++ s.serverInitMessage } := by
  have hpac : processAccessControl e s =
      (true, { s with protocolState := State.FramebufferInit }) := by
    simp [processAccessControl, hac, setState]
  set sR : ConnState :=
    { s with protocolState := State.Running,
             inBuf := s.inBuf.drop sz_rfbClientInitMsg,
             outBuf := s.outBuf ++ s.serverInitMessage } with hsR
  have hrF : read e ({ s with protocolState := State.FramebufferInit } : ConnState) =
      (true, sR) := by
    rw [hsR]
    simp [read, processFramebufferInit, bytesAvailable, hcl, hb, hsi,
      socketReadDrop, socketWrite, socketBuf, setState]
  have hrR : read e sR = (false, sR) := by
    rw [hsR]
    simp [read]
  refine ⟨by simp [hpac], by simp [hpac, hsR], ?_⟩
  calc finishAccessControl e true s
      = readLoop e { s with protocolState := State.FramebufferInit } := by
        simp [finishAccessControl, hpac]
    _ = readLoop e (read e ({ s with protocolState := State.FramebufferInit } : ConnState)).2 :=
        readLoop_step_true _ _ (by rw [hrF])
    _ = readLoop e sR := by rw [hrF]
    _ = (read e sR).2 := readLoop_step_false _ _ (by rw [hrR])
    _ = sR := by rw [hrR]

/-- A connection whose access-control decision has just been recorded as
successful, with the client-init byte already buffered and the
server-init payload populated. -/
def sAcReady : ConnState :=
  { sampleState with protocolState := State.AccessControl,
                     accessControlState := AccessControlState.AccessControlSuccessful,
                     inBuf := [1],
                     serverInitMessage := [7, 8] }

/-- Witness for C2: one notification pass takes the prepared connection
all the way to `Running`, writing the server-init payload. -/
theorem finishAccessControl_completes_handshake_witness :
    finishAccessControl e0 true sAcReady =
      { sAcReady with protocolState := State.Running,
                      inBuf := sAcReady.inBuf.drop sz_rfbClientInitMsg,
                      outBuf := sAcReady.outBuf ++ sAcReady.serverInitMessage } :=
  (finishAccessControl_completes_handshake e0 sAcReady rfl rfl rfl
    (by decide) rfl).2.2

/-- C7: after forwarding a complete variant message to the
authentication collaborator in the `Authenticating` phase, `read()`
writes the collaborator's output followed by exactly the 4-byte
big-endian success code and advances to `AccessControl` returning true
when the resulting authentication state is `FinishedSuccess`; closes the
socket returning false when it is `FinishedFail`; and otherwise returns
false with the phase still `Authenticating`. -/
theorem process_authentication_outcomes (e : Env) (s : ConnState)
    (vs : List VariantValue) (rest : List Nat) (a : AuthState) (w : List Nat)
    (hp : s.protocolState = State.Authenticating)
    (hr : var_receive (socketBuf s) = some (vs, rest))
    (ha : e.processAuthenticationMessage { s with inBuf := rest } vs = (a, w)) :
    (a = AuthState.AuthFinishedSuccess →
      read e s = (true, { s with protocolState := State.AccessControl,
                                 authState := a, inBuf := rest,
                                 outBuf := s.outBuf ++ w ++ toBigEndian32 rfbVncAuthOK })) ∧
    (a = AuthState.AuthFinishedFail →
      read e s = (false, { s with authState := a, inBuf := [],
                                  outBuf := s.outBuf ++ w, closed := true })) ∧
    (a ≠ AuthState.AuthFinishedSuccess → a ≠ AuthState.AuthFinishedFail →
      read e s = (false, { s with authState := a, inBuf := rest,
                                  outBuf := s.outBuf ++ w })) := by
  obtain ⟨p, ac, au, aty, un, hAd, pAd, si, ib, ob, cl⟩ := s
  dsimp only at hp hr ha ⊢
  subst hp
  cases cl with
  | true => exact absurd hr (by simp [socketBuf, var_receive, fromBigEndian32])
  | false =>
    simp only [socketBuf, if_neg, Bool.false_eq_true, ite_false] at hr
    refine ⟨fun hA => ?_, fun hA => ?_, fun hA1 hA2 => ?_⟩
    · subst hA
      simp [read, receiveAuthenticationMessage, socketBuf, hr,
        processAuthentication, ha, socketWrite, setState]
    · subst hA
      simp [read, receiveAuthenticationMessage, socketBuf, hr,
        processAuthentication, ha, socketWrite, socketClose]
    · cases a with
      | AuthFinishedSuccess => exact absurd rfl hA1
      | AuthFinishedFail => exact absurd rfl hA2
      | AuthInit =>
        simp [read, receiveAuthenticationMessage, socketBuf, hr,
          processAuthentication, ha, socketWrite]
      | AuthInProgress =>
        simp [read, receiveAuthenticationMessage, socketBuf, hr,
          processAuthentication, ha, socketWrite]

/-- A connection in the `Authenticating` phase with one complete
credential message buffered. -/
def sAuthMsg : ConnState :=
  { sampleState with protocolState := State.Authenticating,
                     inBuf := encodeMessage [VariantValue.vint 5] }

/-- Witness for C7: a collaborator that finishes successfully makes
`read()` write the success code and advance to `AccessControl`. -/
theorem process_authentication_outcomes_witness :
    read eSucc sAuthMsg = (true, { sAuthMsg with protocolState := State.AccessControl,
                                                 authState := AuthState.AuthFinishedSuccess, inBuf := [],
                                                 outBuf := sAuthMsg.outBuf ++ [9] ++ toBigEndian32 rfbVncAuthOK }) :=
  (process_authentication_outcomes eSucc sAuthMsg [VariantValue.vint 5] []
    AuthState.AuthFinishedSuccess [9] rfl (by decide) rfl).1 rfl

/-- A client that has selected the advertised real authentication type
18 with username "u" in the `AuthenticationTypes` phase. -/
def sAuthSel : ConnState :=
  { sampleState with protocolState := State.AuthenticationTypes,
                     inBuf := encodeMessage [VariantValue.vint 18, VariantValue.vstr "u"] }

/-- Counterexample to C1 as stated: in the `AuthenticationTypes` phase
with a complete message selecting the advertised non-"none" type 18
buffered, `read()` advances the phase to `Authenticating` and yet
returns false, so a phase transition occurs without the call returning
true. -/
theorem read_authtype_selected_returns_false_cex :
    sAuthSel.protocolState = State.AuthenticationTypes ∧
    (read e0 sAuthSel).1 = false ∧
    (read e0 sAuthSel).2.protocolState = State.Authenticating := by decide

/-- C1 (amended): `read()` returning true implies a phase transition
occurred, but not conversely: selecting an advertised non-"none"
authentication type in the `AuthenticationTypes` phase advances the
phase to `Authenticating` (or even to `AccessControl` when the
immediately-run dummy round already succeeds) while `read()` returns
false. -/
theorem read_return_vs_transition (e : Env) (s : ConnState) :
    ((read e s).1 = true → (read e s).2.protocolState ≠ s.protocolState) ∧
    (∀ vs rest, s.protocolState = State.AuthenticationTypes →
      var_receive (socketBuf s) = some (vs, rest) →
      e.supportedAuthTypes.contains (variantToAuthType (vs.headD (VariantValue.vint 0))) = true →
      variantToAuthType (vs.headD (VariantValue.vint 0)) ≠ veyonAuthNone →
      (read e s).1 = false ∧
      ((read e s).2.protocolState = State.Authenticating ∨
       (read e s).2.protocolState = State.AccessControl)) := by
  constructor
  · intro h heq
    have hlt := read_true_phaseRank e s h
    rw [heq] at hlt
    exact lt_irrefl _ hlt
  · intro vs rest hp hr hcont hne
    have hread : read e s = receiveAuthenticationTypeResponse e s := by
      simp [read, hp]
    rw [hread]
    simp only [receiveAuthenticationTypeResponse, hr, hcont, hne]
    simp only [Bool.true_eq_false, if_false, if_neg hne]
    exact ⟨(beginAuthentication_spec e _ _ _).1, (beginAuthentication_spec e _ _ _).2⟩

/-- Witness for the amended C1 at the concrete selecting client. -/
theorem read_return_vs_transition_witness :
    (read e0 sAuthSel).1 = false ∧
    ((read e0 sAuthSel).2.protocolState = State.Authenticating ∨
     (read e0 sAuthSel).2.protocolState = State.AccessControl) :=
  (read_return_vs_transition e0 sAuthSel).2
    [VariantValue.vint 18, VariantValue.vstr "u"] [] rfl (by decide) (by decide)
    (by decide)

/-- A client that has selected the advertised "no authentication" type
in the `AuthenticationTypes` phase, on a connection whose socket knows
its peer address but whose record has no host address captured yet. -/
def sAuthNone : ConnState :=
  { sampleState with protocolState := State.AuthenticationTypes,
                     inBuf := encodeMessage [VariantValue.vint 0] }

/-- Counterexample to C5 as stated: choosing the advertised "no
authentication" type advances directly to `AccessControl`, but the peer
address is NOT captured into the connection record: the host-address
field stays empty although the socket's peer address is known. -/
theorem auth_none_no_peer_capture_cex :
    (read e0 sAuthNone).1 = true ∧
    (read e0 sAuthNone).2.protocolState = State.AccessControl ∧
    sAuthNone.peerAddress = "10.0.0.7" ∧
    (read e0 sAuthNone).2.hostAddress = "" := by decide

/-- C5 (amended): choosing the advertised "no authentication" type makes
`read()` set the phase directly to `AccessControl` and return true, with
no Authenticating-phase message exchange and every other field of the
connection record — including the host/peer-address capture — left
unchanged. -/
theorem auth_none_skips_authentication (e : Env) (s : ConnState)
    (vs : List VariantValue) (rest : List Nat)
    (hp : s.protocolState = State.AuthenticationTypes)
    (hr : var_receive (socketBuf s) = some (vs, rest))
    (ht : variantToAuthType (vs.headD (VariantValue.vint 0)) = veyonAuthNone)
    (hsup : e.supportedAuthTypes.contains veyonAuthNone = true) :
    read e s = (true, { s with inBuf := rest, protocolState := State.AccessControl }) := by
  have ht2 : variantToAuthType (vs.head?.getD (VariantValue.vint 0)) = veyonAuthNone := by
    rw [← List.headD_eq_head?]; exact ht
  have hsup2 : veyonAuthNone ∈ e.supportedAuthTypes := by simpa using hsup
  simp [read, hp, receiveAuthenticationTypeResponse, hr, ht2, hsup2, setState]

/-- Witness for the amended C5 at the concrete no-authentication
client. -/
theorem auth_none_skips_authentication_witness :
    read e0 sAuthNone =
      (true, { sAuthNone with inBuf := [], protocolState := State.AccessControl }) :=
  auth_none_skips_authentication e0 sAuthNone [VariantValue.vint 0] [] rfl
    (by decide) rfl (by decide)

/-- No invocation of `read` ever moves the phase to `Close`: the `Close`
phase can only be entered from outside this dispatch. -/
lemma read_phase_not_close (e : Env) (s : ConnState)
    (h : s.protocolState ≠ State.Close) :
    (read e s).2.protocolState ≠ State.Close := by
  unfold read
  cases hp : s.protocolState <;> simp only [hp]
  case Disconnected => simp
  case Running => simp
  case Close => exact absurd hp h
  case Protocol =>
    rcases readProtocol_phase s with hc | hc
    · rw [hc.2]; decide
    · rw [hc.2, hp]; decide
  case SecurityInit =>
    rcases receiveSecurityTypeResponse_phase e s with hc | hc
    · rw [hc.2]; decide
    · rw [hc.2, hp]; decide
  case AuthenticationTypes =>
    rcases receiveAuthenticationTypeResponse_phase e s with hc | hc
    · rw [hc.2]; decide
    · rcases hc.2 with h2 | h2 | h2 <;> rw [h2] <;> simp [hp]
  case Authenticating =>
    rcases receiveAuthenticationMessage_phase e s with hc | hc
    · rw [hc.2]; decide
    · rw [hc.2, hp]; decide
  case AccessControl =>
    rcases processAccessControl_phase e s with hc | hc
    · rw [hc.2]; decide
    · rw [hc.2, hp]; decide
  case FramebufferInit =>
    rcases processFramebufferInit_phase s with hc | hc
    · rw [hc.2]; decide
    · rw [hc.2, hp]; decide

/-- A buffer holding exactly the required byte count for the
`SecurityInit` phase but carrying an unexpected value. -/
def sSecOk : ConnState :=
  { sampleState with protocolState := State.SecurityInit, inBuf := [rfbSecTypeVeyon] }

/-- A `Protocol`-phase buffer holding fewer bytes than the banner
length. -/
def sProtoShort : ConnState :=
  { sampleState with protocolState := State.Protocol, inBuf := [82, 70, 66] }

/-- Counterexample to C3 as stated: in the `SecurityInit` phase with
exactly the one required byte buffered, `read()` still returns false
when that byte is not the advertised security type, so sufficiency of
the byte count alone does not make `read()` return true. -/
theorem read_exact_bytes_insufficient_cex :
    sWrongSec.protocolState = State.SecurityInit ∧
    bytesAvailable sWrongSec = 1 ∧
    (read e0 sWrongSec).1 = false := by decide

/-- C3 (amended): for every phase other than `AccessControl`, fewer
buffered bytes than the phase's requirement make `read()` return false
leaving the state untouched; and for the fixed-byte-count phases
(`Protocol`, `SecurityInit`, `FramebufferInit`) the arrival of the
required bytes with valid content makes `read()` return true, reading no
more than the requirement. -/
theorem read_byte_requirements (e : Env) (s : ConnState) :
    (s.protocolState = State.Protocol → bytesAvailable s < sz_rfbProtocolVersionMsg →
      read e s = (false, s)) ∧
    (s.protocolState = State.SecurityInit → bytesAvailable s < 1 →
      read e s = (false, s)) ∧
    (s.protocolState = State.AuthenticationTypes → var_receive (socketBuf s) = none →
      read e s = (false, s)) ∧
    (s.protocolState = State.Authenticating → var_receive (socketBuf s) = none →
      read e s = (false, s)) ∧
    (s.protocolState = State.FramebufferInit → bytesAvailable s < sz_rfbClientInitMsg →
      read e s = (false, s)) ∧
    (s.protocolState = State.Protocol → s.closed = false →
      s.inBuf.length = sz_rfbProtocolVersionMsg → sscanfVersionOk s.inBuf = true →
      (read e s).1 = true ∧ (read e s).2.inBuf = s.inBuf.drop sz_rfbProtocolVersionMsg) ∧
    (s.protocolState = State.SecurityInit → s.closed = false → 1 ≤ s.inBuf.length →
      s.inBuf.headD 0 = rfbSecTypeVeyon →
      (read e s).1 = true ∧ (read e s).2.inBuf = s.inBuf.drop 1) ∧
    (s.protocolState = State.FramebufferInit → s.closed = false →
      sz_rfbClientInitMsg ≤ s.inBuf.length → s.serverInitMessage.isEmpty = false →
      (read e s).1 = true ∧ (read e s).2.inBuf = s.inBuf.drop sz_rfbClientInitMsg) := by
  refine ⟨fun hp hl => ?_, fun hp hl => ?_, fun hp hn => ?_, fun hp hn => ?_,
    fun hp hl => ?_, fun hp hcl hlen hscan => ?_, fun hp hcl hlen hhead => ?_,
    fun hp hcl hlen hsi => ?_⟩
  · have hne : ¬ bytesAvailable s = sz_rfbProtocolVersionMsg := by omega
    simp [read, hp, readProtocol, hne]
  · have hne : ¬ 1 ≤ bytesAvailable s := by omega
    simp [read, hp, receiveSecurityTypeResponse, hne]
  · simp [read, hp, receiveAuthenticationTypeResponse, hn]
  · simp [read, hp, receiveAuthenticationMessage, hn]
  · have hne : ¬ sz_rfbClientInitMsg ≤ bytesAvailable s := by omega
    simp [read, hp, processFramebufferInit, hne]
  · have hav : bytesAvailable s = sz_rfbProtocolVersionMsg := by
      simp [bytesAvailable, hcl, hlen]
    have htake : List.take sz_rfbProtocolVersionMsg s.inBuf = s.inBuf := by
      rw [← hlen]
      exact List.take_length _
    constructor <;>
      simp [read, hp, readProtocol, hav, htake, hscan, sendSecurityTypes,
        socketReadDrop, socketBuf, hcl]
  · have hav : 1 ≤ bytesAvailable s := by simp [bytesAvailable, hcl, hlen]
    have hhead2 : s.inBuf.head?.getD 0 = rfbSecTypeVeyon := by
      rw [← List.headD_eq_head?]; exact hhead
    constructor <;>
      simp [read, hp, receiveSecurityTypeResponse, hav, hhead2,
        sendAuthenticationTypes, socketReadDrop, socketBuf, hcl]
  · have hav : sz_rfbClientInitMsg ≤ bytesAvailable s := by
      simp [bytesAvailable, hcl]; exact hlen
    constructor <;>
      simp [read, hp, processFramebufferInit, hav, hsi, socketReadDrop,
        socketWrite, socketBuf, hcl, setState]

/-- Witness for the amended C3: a short `Protocol` buffer makes no
progress, and the advertised security-type byte makes progress consuming
exactly one byte. -/
theorem read_byte_requirements_witness :
    read e0 sProtoShort = (false, sProtoShort) ∧
    ((read e0 sSecOk).1 = true ∧ (read e0 sSecOk).2.inBuf = sSecOk.inBuf.drop 1) :=
  ⟨(read_byte_requirements e0 sProtoShort).1 rfl (by decide),
   (read_byte_requirements e0 sSecOk).2.2.2.2.2.2.1 rfl rfl (by decide) (by decide)⟩

/-- Counterexample to C8 as stated: an authentication failure detected
during the dummy round run from the `AuthenticationTypes` phase closes
the transport with the phase already advanced to `Authenticating`, not
at the value it had when the call began. -/
theorem fatal_close_phase_changed_cex :
    sAuthSel.protocolState = State.AuthenticationTypes ∧
    (read eFail sAuthSel).1 = false ∧
    (read eFail sAuthSel).2.closed = true ∧
    (read eFail sAuthSel).2.protocolState = State.Authenticating := by decide

/-- C8 (amended): every fatal condition closes the transport, returns
false, and never sets the phase to `Close`; the phase is left at the
value it had when the failing check ran — equal to the phase at the
start of the call in every case except an authentication failure
detected in the dummy round triggered from the `AuthenticationTypes`
phase, where the phase has already advanced to `Authenticating`. -/
theorem fatal_conditions_close_keep_phase (e : Env) (s : ConnState) :
    ((read e s).2.protocolState = State.Close → s.protocolState = State.Close) ∧
    (s.protocolState = State.Protocol → s.closed = false →
      s.inBuf.length = sz_rfbProtocolVersionMsg → sscanfVersionOk s.inBuf = false →
      read e s = (false, { s with inBuf := [], closed := true })) ∧
    (s.protocolState = State.SecurityInit → s.closed = false → 1 ≤ s.inBuf.length →
      s.inBuf.headD 0 ≠ rfbSecTypeVeyon →
      read e s = (false, { s with inBuf := [], closed := true })) ∧
    (∀ vs rest, s.protocolState = State.AuthenticationTypes →
      var_receive (socketBuf s) = some (vs, rest) →
      e.supportedAuthTypes.contains (variantToAuthType (vs.headD (VariantValue.vint 0))) = false →
      read e s = (false, { s with inBuf := [], closed := true })) ∧
    (∀ vs rest a w, s.protocolState = State.Authenticating →
      var_receive (socketBuf s) = some (vs, rest) →
      e.processAuthenticationMessage { s with inBuf := rest } vs = (a, w) →
      a = AuthState.AuthFinishedFail →
      read e s = (false, { s with authState := a, inBuf := [],
                                  outBuf := s.outBuf ++ w, closed := true })) ∧
    (s.protocolState = State.AccessControl →
      s.accessControlState = AccessControlState.AccessControlFailed →
      read e s = (false, { s with inBuf := [], closed := true })) ∧
    (∀ vs rest, s.protocolState = State.AuthenticationTypes →
      var_receive (socketBuf s) = some (vs, rest) →
      e.supportedAuthTypes.contains (variantToAuthType (vs.headD (VariantValue.vint 0))) = true →
      variantToAuthType (vs.headD (VariantValue.vint 0)) ≠ veyonAuthNone →
      (∀ s2 m, (e.processAuthenticationMessage s2 m).1 = AuthState.AuthFinishedFail) →
      (read e s).1 = false ∧ (read e s).2.closed = true ∧
      (read e s).2.protocolState = State.Authenticating) := by
  refine ⟨fun h => ?_, fun hp hcl hlen hscan => ?_, fun hp hcl hlen hhead => ?_,
    fun vs rest hp hr hcont => ?_, fun vs rest a w hp hr ha hA => ?_,
    fun hp hac => ?_, fun vs rest hp hr hcont hne hF => ?_⟩
  · by_contra hne
    exact read_phase_not_close e s hne h
  · have hav : bytesAvailable s = sz_rfbProtocolVersionMsg := by
      simp [bytesAvailable, hcl, hlen]
    have htake : List.take sz_rfbProtocolVersionMsg s.inBuf = s.inBuf := by
      rw [← hlen]
      exact List.take_length _
    simp [read, hp, readProtocol, hav, htake, hscan, socketClose,
      socketReadDrop, socketBuf, hcl]
  · have hav : 1 ≤ bytesAvailable s := by simp [bytesAvailable, hcl, hlen]
    have hhead2 : ¬ s.inBuf.head?.getD 0 = rfbSecTypeVeyon := by
      rw [← List.headD_eq_head?]; exact hhead
    simp [read, hp, receiveSecurityTypeResponse, hav, hhead2, socketClose,
      socketReadDrop, socketBuf, hcl]
  · have hcont2 : variantToAuthType (vs.head?.getD (VariantValue.vint 0)) ∉
        e.supportedAuthTypes := by
      rw [← List.headD_eq_head?]
      simpa using hcont
    simp [read, hp, receiveAuthenticationTypeResponse, hr, hcont2, socketClose]
  · subst hA
    obtain ⟨p, ac, au, aty, un, hAd, pAd, si, ib, ob, cl⟩ := s
    dsimp only at hp hr ha ⊢
    subst hp
    cases cl with
    | true => exact absurd hr (by simp [socketBuf, var_receive, fromBigEndian32])
    | false =>
      simp only [socketBuf, ite_false, Bool.false_eq_true] at hr
      simp [read, receiveAuthenticationMessage, socketBuf, hr,
        processAuthentication, ha, socketWrite, socketClose]
  · simp [read, hp, processAccessControl, hac, socketClose]
  · have hread : read e s = receiveAuthenticationTypeResponse e s := by
      simp [read, hp]
    rw [hread]
    simp only [receiveAuthenticationTypeResponse, hr, hcont]
    simp only [Bool.true_eq_false, if_false, if_neg hne]
    exact ⟨(beginAuthentication_fail e _ _ _ hF).1,
      (beginAuthentication_fail e _ _ _ hF).2.1,
      (beginAuthentication_fail e _ _ _ hF).2.2⟩

/-- A `Protocol`-phase buffer holding twelve bytes that the version
format cannot parse. -/
def sBadBanner : ConnState :=
  { sampleState with protocolState := State.Protocol,
                     inBuf := List.replicate sz_rfbProtocolVersionMsg 88 }

/-- Witness for the amended C8: a malformed banner closes the transport
with the phase still `Protocol`. -/
theorem fatal_conditions_close_keep_phase_witness :
    read e0 sBadBanner = (false, { sBadBanner with inBuf := [], closed := true }) :=
  (fatal_conditions_close_keep_phase e0 sBadBanner).2.1 rfl rfl (by decide)
    (by decide)

end VncServerProtocol
